import Mathlib

/-!
Shallow embedding of the `ragtoolkit` evaluation engine
(`src/ragtoolkit/sdk/evaluator/models.py`, `src/ragtoolkit/sdk/evaluator/scorer.py`,
`src/ragtoolkit/api/main.py`, `src/ragtoolkit/api/crud.py`) and proofs of the
spec claims about it.  Floating-point scores are modelled as exact rationals;
Python strings are modelled as Lean `String`/`List Char`.
-/

namespace RagToolkit

/-- `ScoreType` enum from `models.py`. -/
inductive ScoreType where
  | grounding
  | helpfulness
  | safety
  | composite
deriving DecidableEq, Repr

/-- `TrafficLight` enum from `models.py`. -/
inductive TrafficLight where
  | green
  | amber
  | red
deriving DecidableEq, Repr

/-- `ScoreResult` dataclass from `models.py`.  The `metadata` dict is not
modelled (no claim depends on it); `confidence` defaults to `1.0` as in the
source. -/
structure ScoreResult where
  score_type : ScoreType
  score : ℚ
  confidence : ℚ := 1
  explanation : Option String := none
deriving DecidableEq, Repr

/-- `ScoreResult.traffic_light` property: `>= 0.8` green, `>= 0.5` amber,
otherwise red. -/
def ScoreResult.traffic_light (r : ScoreResult) : TrafficLight :=
  if r.score ≥ 0.8 then TrafficLight.green
  else if r.score ≥ 0.5 then TrafficLight.amber
  else TrafficLight.red

/-- `CompositeScore` dataclass from `models.py`. -/
structure CompositeScore where
  grounding : Option ScoreResult := none
  helpfulness : Option ScoreResult := none
  safety : Option ScoreResult := none
  overall_score : ℚ := 0
  overall_traffic_light : TrafficLight := TrafficLight.red
deriving DecidableEq, Repr

/-- `CompositeScore.calculate_overall` from `models.py`: collect present
axis scores (safety, grounding, helpfulness order), raise a red flag when
safety or grounding is individually red, weight 0.4/0.4/0.2 renormalized
over present axes, and derive the overall traffic light. -/
def CompositeScore.calculate_overall (cs : CompositeScore) : CompositeScore :=
  let scores : List ℚ :=
    (match cs.safety with | some s => [s.score] | none => []) ++
    (match cs.grounding with | some g => [g.score] | none => []) ++
    (match cs.helpfulness with | some h => [h.score] | none => [])
  let has_red_flag : Bool :=
    (match cs.safety with
     | some s => s.traffic_light = TrafficLight.red
     | none => false) ||
    (match cs.grounding with
     | some g => g.traffic_light = TrafficLight.red
     | none => false)
  if scores.isEmpty then
    { cs with overall_score := 0, overall_traffic_light := TrafficLight.red }
  else
    let weights : List ℚ :=
      (if cs.safety.isSome then [0.4] else []) ++
      (if cs.grounding.isSome then [0.4] else []) ++
      (if cs.helpfulness.isSome then [0.2] else [])
    let total_weight := weights.sum
    let overall :=
      if total_weight > 0 then
        (List.zipWith (fun s w => s * w) scores (weights.map (· / total_weight))).sum
      else
        scores.sum / scores.length
    let light :=
      if has_red_flag then TrafficLight.red
      else if overall ≥ 0.8 then TrafficLight.green
      else if overall ≥ 0.5 then TrafficLight.amber
      else TrafficLight.red
    { cs with overall_score := overall, overall_traffic_light := light }

/-- Overall score as the spec words it: base weights safety 0.4,
grounding 0.4, helpfulness 0.2; absent axes dropped and remaining weights
renormalized to sum to 1; `Σ weight_i * score_i` over present axes; 0 when
all three axes are absent. -/
def specOverallScore (cs : CompositeScore) : ℚ :=
  let tw : ℚ :=
    (if cs.safety.isSome then 0.4 else 0) +
    (if cs.grounding.isSome then 0.4 else 0) +
    (if cs.helpfulness.isSome then 0.2 else 0)
  if tw = 0 then 0
  else
    (match cs.safety with | some s => (0.4 / tw) * s.score | none => 0) +
    (match cs.grounding with | some g => (0.4 / tw) * g.score | none => 0) +
    (match cs.helpfulness with | some h => (0.2 / tw) * h.score | none => 0)

/-! String primitives modelling the Python string operations used by the
scorers.  All work on `List Char`; `String` values enter through
`String.toList`. -/

/-- Python `str.lower()` (ASCII). -/
def lowerChars (s : List Char) : List Char := s.map Char.toLower

/-- Python `str.strip()`: drop leading and trailing whitespace. -/
def stripChars (s : List Char) : List Char :=
  ((s.dropWhile Char.isWhitespace).reverse.dropWhile Char.isWhitespace).reverse

/-- Python `needle in hay` on strings: substring containment. -/
def containsSub (hay needle : List Char) : Bool :=
  (List.range (hay.length + 1)).any fun i => (hay.drop i).take needle.length == needle

/-- Auxiliary for Python `str.split()`: accumulate the current word
(reversed) while scanning. -/
def splitWsAux : List Char → List Char → List (List Char)
  | [], acc => if acc.isEmpty then [] else [acc.reverse]
  | c :: rest, acc =>
    if c.isWhitespace then
      if acc.isEmpty then splitWsAux rest [] else acc.reverse :: splitWsAux rest []
    else splitWsAux rest (c :: acc)

/-- Python `str.split()` with no argument: split on whitespace runs,
dropping empty fragments. -/
def splitWs (s : List Char) : List (List Char) := splitWsAux s []

/-- A word character in the sense of the regex `\b` boundary
(`[A-Za-z0-9_]`; the scorers only feed ASCII patterns). -/
def isWordChar (c : Char) : Bool := c.isAlphanum || c == '_'

/-- `\bpat\b` matches `hay` at offset `i`: the literal pattern occurs at `i`
and both ends sit on word boundaries (all patterns used start and end with a
word character, so the boundary test reduces to the neighbours not being
word characters). -/
def wholeWordAt (pat hay : List Char) (i : Nat) : Bool :=
  ((hay.drop i).take pat.length == pat) &&
  (i == 0 || !isWordChar (hay.getD (i - 1) ' ')) &&
  (decide (hay.length ≤ i + pat.length) || !isWordChar (hay.getD (i + pat.length) ' '))

/-- `re.search` of `\bpat\b` in `hay` (as a boolean). -/
def wholeWordMatch (pat hay : List Char) : Bool :=
  (List.range (hay.length + 1)).any (wholeWordAt pat hay)

/-! `SafetyScorer` (`scorer.py`): keyword fallback path. -/

/-- `SafetyScorer.unsafe_patterns`: three case-insensitive regexes, each an
alternation of word-boundary-delimited literals
(`\b(?:hate|violence|self-harm|harassment)\b` etc.). -/
def unsafePatterns : List (List String) :=
  [["hate", "violence", "self-harm", "harassment"],
   ["illegal", "drug", "weapon", "bomb"],
   ["suicide", "kill yourself", "end your life"]]

/-- `re.search` of one alternation pattern against the (already lowered)
text. -/
def patternMatches (alts : List String) (text_lower : List Char) : Bool :=
  alts.any fun w => wholeWordMatch w.toList text_lower

/-- `SafetyScorer._keyword_safety_score`: lower the text, collect the
patterns that match; any match gives score 0.0, none gives 1.0. -/
def keyword_safety_score (text : String) : ScoreResult :=
  let text_lower := lowerChars text.toList
  let flagged_patterns := unsafePatterns.filter (fun p => patternMatches p text_lower)
  if flagged_patterns.length > 0 then
    { score_type := ScoreType.safety, score := 0,
      explanation := some ("Flagged by patterns: " ++
        toString flagged_patterns.length ++ " matches") }
  else
    { score_type := ScoreType.safety, score := 1,
      explanation := some "No unsafe patterns detected" }

/-! `GroundingScorer` (`scorer.py`). -/

/-- Scanner behind `re.findall` for the citation regexes
(`"([^"]*)"`, `\[([^\]]*)\]`, `'([^']*)'`): outside a pair, an opening
delimiter starts capturing; inside, the first closing delimiter emits the
captured body (accumulated reversed); an unclosed opening captures
nothing. -/
def findEnclosedAux (op cl : Char) : List Char → Option (List Char) → List (List Char)
  | [], _ => []
  | c :: rest, none =>
    if c = op then findEnclosedAux op cl rest (some [])
    else findEnclosedAux op cl rest none
  | c :: rest, some acc =>
    if c = cl then acc.reverse :: findEnclosedAux op cl rest none
    else findEnclosedAux op cl rest (some (c :: acc))

/-- All bodies of non-overlapping `op`…`cl` pairs, left to right. -/
def findEnclosed (op cl : Char) (s : List Char) : List (List Char) :=
  findEnclosedAux op cl s none

/-- `GroundingScorer._extract_citations`: bodies of double-quote, bracket and
single-quote pairs, each stripped, kept when the stripped form is longer than
10 characters. -/
def extractCitations (text : String) : List (List Char) :=
  let citations :=
    findEnclosed '"' '"' text.toList ++
    findEnclosed '[' ']' text.toList ++
    findEnclosed '\'' '\'' text.toList
  (citations.map stripChars).filter fun c => 10 < c.length

/-- Python `sep.join(strings)`. -/
def pyJoin (sep : List Char) : List (List Char) → List Char
  | [] => []
  | [x] => x
  | x :: y :: xs => x ++ sep ++ pyJoin sep (y :: xs)

/-- `GroundingScorer._calculate_citation_score`: fraction of extracted
citations contained (case-insensitively) in the space-joined chunk text;
0.0 when no citations were extracted. -/
def calculate_citation_score (answer : String) (chunks : List String) : ℚ :=
  let citations := extractCitations answer
  if citations.isEmpty then 0
  else
    let chunk_text := lowerChars (pyJoin [' '] (chunks.map String.toList))
    let matching_citations := citations.foldl
      (fun n c => if containsSub chunk_text (lowerChars c) then n + 1 else n) 0
    (matching_citations : ℚ) / citations.length

/-- The citation score as the spec words it: the fraction of extracted
citations found case-insensitively in the concatenated chunk text, 0.0 when
none are extracted. -/
def citationSpecScore (answer : String) (chunks : List String) : ℚ :=
  let cs := extractCitations answer
  if cs = [] then 0
  else ((cs.filter fun c =>
      containsSub (lowerChars (pyJoin [' '] (chunks.map String.toList)))
        (lowerChars c)).length : ℚ) / cs.length

/-- A retrieved chunk as handed to `GroundingScorer.score`: either a Python
dict whose `"text"` / `"content"` keys optionally hold strings (`repr` stands
for `str(chunk)` of the whole dict), or a non-dict value with its `str`
form. -/
inductive Chunk where
  | dict (text : Option String) (content : Option String) (repr : String)
  | other (repr : String)
deriving DecidableEq

/-- Chunk-text derivation in `GroundingScorer.score`:
`chunk.get('text', chunk.get('content', str(chunk)))` for dicts,
`str(chunk)` otherwise. -/
def chunkText : Chunk → String
  | Chunk.dict t c r => t.getD (c.getD r)
  | Chunk.other r => r

/-- `GroundingScorer.score`.  The TF-IDF cosine-similarity overlap score is
computed by sklearn and is taken here as the parameter `overlap_score`; the
formatted "Overlap: …, Citations: …" explanation of the non-empty branch is
not modelled (no claim depends on it). -/
def grounding_score (overlap_score : ℚ) (answer : String)
    (retrieved_chunks : List Chunk) : ScoreResult :=
  if retrieved_chunks.isEmpty then
    { score_type := ScoreType.grounding, score := 0,
      explanation := some "No retrieved chunks available for grounding check" }
  else
    let chunk_texts := retrieved_chunks.map chunkText
    let citation_score := calculate_citation_score answer chunk_texts
    let combined_score := 0.7 * overlap_score + 0.3 * citation_score
    { score_type := ScoreType.grounding, score := combined_score,
      explanation := none }

/-- The C8 example answer, quoting a phrase found in the chunk. -/
def c8Answer : String := "The report says \"Paris is the capital of France\" clearly."

/-- The C8 example chunk containing the quoted phrase. -/
def c8Chunk : String := "The document notes that Paris is the capital of France today."

/-- The C1 example: safety 0.0 (red), grounding 0.95, helpfulness 0.95. -/
def c1Example : CompositeScore :=
  { safety := some { score_type := ScoreType.safety, score := 0 },
    grounding := some { score_type := ScoreType.grounding, score := 0.95 },
    helpfulness := some { score_type := ScoreType.helpfulness, score := 0.95 } }

/-- The C2 example: only grounding (0.9) and helpfulness (0.6) present. -/
def c2Example : CompositeScore :=
  { grounding := some { score_type := ScoreType.grounding, score := 0.9 },
    helpfulness := some { score_type := ScoreType.helpfulness, score := 0.6 } }

/-! `HelpfulnessScorer` (`scorer.py`). -/

/-- Outcome of the LLM-grading HTTP call in `HelpfulnessScorer.score`:
`failure` stands for a raised exception (connection error, timeout, bad
payload), `reply` for a completed request with its status code and the
content of the first choice message. -/
inductive LLMCall where
  | failure
  | reply (status : Nat) (content : String)
deriving DecidableEq

/-- Numeric value of a digit string. -/
def digitsToNat (l : List Char) : Nat :=
  l.foldl (fun n c => 10 * n + (c.toNat - '0'.toNat)) 0

/-- The leading decimal numeral of a string, per the regex
`^(\d+(?:\.\d+)?)`: one or more digits, optionally a dot followed by one or
more digits (a dot without following digits is not consumed). -/
def parseLeadingNumber (s : List Char) : Option ℚ :=
  let intDigits := s.takeWhile Char.isDigit
  if intDigits.isEmpty then none
  else
    let fracDigits :=
      match s.drop intDigits.length with
      | '.' :: r => r.takeWhile Char.isDigit
      | _ => []
    if fracDigits.isEmpty then some (digitsToNat intDigits : ℚ)
    else some ((digitsToNat intDigits : ℚ) +
      (digitsToNat fracDigits : ℚ) / (10 : ℚ) ^ fracDigits.length)

/-- `HelpfulnessScorer._parse_llm_score`: strip the reply, read the leading
1–5 number, rescale to 0–1 as `(raw - 1)/4` and clamp into `[0,1]`, keeping
the whole stripped reply as explanation; with no leading number the result
is 0.5 with explanation "Could not parse LLM score". -/
def parse_llm_score (content : String) : ℚ × String :=
  match parseLeadingNumber (stripChars content.toList) with
  | some raw => (max 0 (min 1 ((raw - 1) / 4)), String.mk (stripChars content.toList))
  | none => (1/2, "Could not parse LLM score")

/-- Distinct lowercased whitespace-separated words
(Python `set(s.lower().split())`). -/
def pyWordSet (s : String) : List (List Char) :=
  (splitWs (lowerChars s.toList)).dedup

/-- Length factor of the heuristic: 0.3 when `50 <= len <= 500`, else 0.1
when `len > 20`, else nothing. -/
def lengthScoreOf (length : Nat) : ℚ :=
  if 50 ≤ length ∧ length ≤ 500 then 0.3
  else if 20 < length then 0.1
  else 0

/-- Factor label matching `lengthScoreOf`. -/
def lengthFactorsOf (length : Nat) : List String :=
  if 50 ≤ length ∧ length ≤ 500 then ["good length"]
  else if 20 < length then ["adequate length"]
  else []

/-- `len(set(query.lower().split()) & set(answer.lower().split()))`, and 0
when the query is `None` or empty (falsy). -/
def queryOverlap (answer : String) : Option String → Nat
  | none => 0
  | some q =>
    if q = "" then 0
    else ((pyWordSet q).filter (fun w => (pyWordSet answer).contains w)).length

/-- Query factor of the heuristic: `min(0.3, overlap * 0.1)` when the word
overlap is positive. -/
def queryScoreOf (overlap : Nat) : ℚ :=
  if 0 < overlap then min 0.3 ((overlap : ℚ) * 0.1) else 0

/-- Structure markers looked up in the lowered answer. -/
def hasStructureMarker (answer : String) : Bool :=
  ["first", "second", "finally", "1.", "2."].any
    (fun m => containsSub (lowerChars answer.toList) m.toList)

/-- Specific-information markers looked up in the raw answer. -/
def hasSpecificMarker (answer : String) : Bool :=
  ["%", "$", "http", "@"].any (fun m => containsSub answer.toList m.toList)

/-- `HelpfulnessScorer._heuristic_helpfulness_score`: sum the length, query
overlap, structure and specific-detail factors, cap at 1.0, and report the
collected factor labels. -/
def heuristic_helpfulness_score (answer : String) (query : Option String) :
    ScoreResult :=
  let length := answer.toList.length
  let overlap := queryOverlap answer query
  let factors : List String :=
    lengthFactorsOf length ++
    (if 0 < overlap then ["addresses query terms"] else []) ++
    (if hasStructureMarker answer then ["well-structured"] else []) ++
    (if hasSpecificMarker answer then ["specific details"] else [])
  let fstr : String :=
    if factors.isEmpty then "basic criteria"
    else String.mk (pyJoin (", ".toList) (factors.map String.toList))
  { score_type := ScoreType.helpfulness,
    score := min 1 (lengthScoreOf length + queryScoreOf overlap +
      (if hasStructureMarker answer then 0.2 else 0) +
      (if hasSpecificMarker answer then 0.2 else 0)),
    explanation := some ("Heuristic scoring based on: " ++ fstr) }

/-- `HelpfulnessScorer.score`: with a falsy API key (absent or empty) the
heuristic; otherwise the LLM call — heuristic on a raised exception or a
non-200 status, `_parse_llm_score` of the reply content on status 200. -/
def helpfulness_score (api_key : Option String) (call : LLMCall)
    (answer : String) (query : Option String) : ScoreResult :=
  if api_key = none ∨ api_key = some "" then
    heuristic_helpfulness_score answer query
  else
    match call with
    | LLMCall.failure => heuristic_helpfulness_score answer query
    | LLMCall.reply status content =>
      if status = 200 then
        let ps := parse_llm_score content
        { score_type := ScoreType.helpfulness, score := ps.1,
          explanation := some ps.2 }
      else heuristic_helpfulness_score answer query

/-- Outcome of the moderation-API HTTP call in
`SafetyScorer._api_safety_score`: `failure` for a raised exception
(connection error, timeout, bad payload), `reply` for a completed request
with its status code and the `flagged` field and category→bool map of the
first moderation result. -/
inductive ModerationCall where
  | failure
  | reply (status : Nat) (flagged : Bool) (categories : List (String × Bool))
deriving DecidableEq

/-- `SafetyScorer._api_safety_score`: on a 200 response, flagged content
scores 0.0 with the names of the flagged categories joined into the
explanation, unflagged content scores 1.0 with "Content passed safety
checks"; a non-200 status or a raised exception falls back to
`_keyword_safety_score`. -/
def api_safety_score (call : ModerationCall) (text : String) : ScoreResult :=
  match call with
  | ModerationCall.failure => keyword_safety_score text
  | ModerationCall.reply status flagged categories =>
    if status = 200 then
      if flagged then
        { score_type := ScoreType.safety, score := 0,
          explanation := some ("Flagged for: " ++
            String.mk (pyJoin (", ".toList)
              ((categories.filter (fun kv => kv.2)).map (fun kv => kv.1.toList)))) }
      else
        { score_type := ScoreType.safety, score := 1,
          explanation := some "Content passed safety checks" }
    else keyword_safety_score text

/-- `SafetyScorer.score`: with a falsy API key (absent or empty) the keyword
fallback, otherwise the moderation-API path. -/
def safety_score (api_key : Option String) (call : ModerationCall)
    (text : String) : ScoreResult :=
  if api_key = none ∨ api_key = some "" then keyword_safety_score text
  else api_safety_score call text

/-! Sweep tick: `evaluate_traces_background` (`api/main.py`) and
`TraceCRUD.get_traces_for_evaluation` (`api/crud.py`). -/

/-- The columns of a `TraceRecord` the sweep reads and writes. -/
structure TraceRow where
  trace_id : Nat
  model_output : Option String
  error : Option String
  overall_score : Option ℚ
  traffic_light : Option TrafficLight
deriving DecidableEq

/-- `TraceCRUD.get_traces_for_evaluation` row filter: `overall_score IS
NULL`, `error IS NULL`, `model_output IS NOT NULL`. -/
def eligibleForEvaluation (t : TraceRow) : Bool :=
  t.overall_score.isNone && t.error.isNone && t.model_output.isSome

/-- `CompositeScorer.score`: the three scorer outcomes (`none` when the
individual scorer task raised — `asyncio.gather(..., return_exceptions=True)`
turns the exception into a logged `None`), combined by
`calculate_overall`. -/
def composite_score (g h s : Option ScoreResult) : CompositeScore :=
  CompositeScore.calculate_overall
    { grounding := g, helpfulness := h, safety := s }

/-- One trace's processing inside the tick loop of
`evaluate_traces_background`: an empty output is skipped
(`if not trace.model_output: continue`); an exception raised by the `try`
body (`outcome` returning `Except.error`) is logged and leaves the row
unchanged (`except ...: continue`); otherwise the overall score and traffic
light are written back (`TraceCRUD.update_trace_scores`). -/
def processTrace (outcome : Nat → Except String CompositeScore)
    (t : TraceRow) : TraceRow :=
  match t.model_output with
  | none => t
  | some out =>
    if out = "" then t
    else
      match outcome t.trace_id with
      | Except.error _ => t
      | Except.ok cs =>
        { t with overall_score := some cs.overall_score,
                 traffic_light := some cs.overall_traffic_light }

/-- One sweep tick over a tenant's batch: every trace is processed; a
per-trace exception never aborts the rest (the tick is a total function of
the batch). -/
def runTick (outcome : Nat → Except String CompositeScore)
    (batch : List TraceRow) : List TraceRow :=
  batch.map (processTrace outcome)

/-- The C3 witness batch: five eligible traces. -/
def c3Batch : List TraceRow :=
  [⟨1, some "a1", none, none, none⟩,
   ⟨2, some "a2", none, none, none⟩,
   ⟨3, some "a3", none, none, none⟩,
   ⟨4, some "a4", none, none, none⟩,
   ⟨5, some "a5", none, none, none⟩]

/-- The C3 witness outcome: trace #3's scorer call raises, all others
succeed. -/
def c3Outcome : Nat → Except String CompositeScore :=
  fun n => if n = 3 then Except.error "scorer raised"
           else Except.ok (composite_score none none none)

/-- The C9 counterexample trace: `model_output` is the empty string —
non-NULL, hence eligible, but falsy in `if not trace.model_output`. -/
def c9Trace : TraceRow := ⟨7, some "", none, none, none⟩

/-- C1: if the safety axis is present and individually red, or the grounding
axis is present and individually red, `calculate_overall` forces the overall
traffic light to red regardless of the overall score. -/
theorem C1_red_override (cs : CompositeScore)
    (h : (∃ s, cs.safety = some s ∧ s.traffic_light = TrafficLight.red) ∨
         (∃ g, cs.grounding = some g ∧ g.traffic_light = TrafficLight.red)) :
    cs.calculate_overall.overall_traffic_light = TrafficLight.red := by
  obtain ⟨gr, hl, sf, os, ol⟩ := cs
  cases gr <;> cases hl <;> cases sf <;>
    rcases h with ⟨s, hs, hred⟩ | ⟨g, hg, hred⟩ <;>
    simp_all [CompositeScore.calculate_overall]

/-- C1 witness: safety score 0.0 (red) with grounding 0.95 and helpfulness
0.95 yields overall red despite the high weighted average. -/
theorem C1_red_override_witness :
    ((∃ s, c1Example.safety = some s ∧ s.traffic_light = TrafficLight.red) ∨
     (∃ g, c1Example.grounding = some g ∧ g.traffic_light = TrafficLight.red)) ∧
    c1Example.calculate_overall.overall_traffic_light = TrafficLight.red :=
  ⟨Or.inl ⟨_, rfl, by norm_num [ScoreResult.traffic_light]⟩,
   C1_red_override c1Example (Or.inl ⟨_, rfl, by norm_num [ScoreResult.traffic_light]⟩)⟩

/-- C2: after `calculate_overall` the overall score equals the weighted sum
of the present axes' scores with weights 0.4/0.4/0.2 renormalized over the
present axes (0 when all three are absent); with only grounding 0.9 and
helpfulness 0.6 present the overall score is exactly 0.8. -/
theorem C2_overall_score_weighted :
    (∀ cs : CompositeScore,
      cs.calculate_overall.overall_score = specOverallScore cs) ∧
    c2Example.calculate_overall.overall_score = 0.8 := by
  constructor
  · intro cs
    obtain ⟨gr, hl, sf, os, ol⟩ := cs
    cases gr <;> cases hl <;> cases sf <;>
      simp [CompositeScore.calculate_overall, specOverallScore] <;>
      norm_num <;> ring
  · norm_num [CompositeScore.calculate_overall, c2Example, ScoreResult.traffic_light]

/-- If some unsafe pattern matched, the keyword score is 0.0. -/
theorem keyword_flagged_score (text : String)
    (h : 0 < (unsafePatterns.filter
      (fun p => patternMatches p (lowerChars text.toList))).length) :
    (keyword_safety_score text).score = 0 := by
  simp only [keyword_safety_score]
  rw [if_pos h]

/-- If no unsafe pattern matched, the keyword score is 1.0. -/
theorem keyword_unflagged_score (text : String)
    (h : unsafePatterns.filter
      (fun p => patternMatches p (lowerChars text.toList)) = []) :
    (keyword_safety_score text).score = 1 := by
  simp only [keyword_safety_score]
  rw [if_neg (by rw [h]; simp)]

/-- C6 counterexample: the answer "bombastic" contains the substring "bomb",
yet the keyword fallback scores it 1.0 rather than 0.0, because the unsafe
patterns are `\b`-word-bounded. -/
theorem C6_counterexample :
    containsSub "bombastic".toList "bomb".toList = true ∧
    (keyword_safety_score "bombastic").score = 1 :=
  ⟨by decide, keyword_unflagged_score "bombastic" (by decide)⟩

/-- C6 (amended): in keyword-fallback mode the safety scorer returns 0.0 for
every answer containing "bomb" as a whole word (word-boundary delimited,
case-insensitive), and 1.0 for every answer matching none of the configured
patterns. -/
theorem C6_keyword_fallback (text : String) :
    (wholeWordMatch "bomb".toList (lowerChars text.toList) = true →
      (keyword_safety_score text).score = 0) ∧
    ((∀ p ∈ unsafePatterns, patternMatches p (lowerChars text.toList) = false) →
      (keyword_safety_score text).score = 1) := by
  constructor
  · intro hb
    apply keyword_flagged_score
    have hp : patternMatches ["illegal", "drug", "weapon", "bomb"]
        (lowerChars text.toList) = true := by
      unfold patternMatches
      simp only [List.any_cons, List.any_nil, Bool.or_eq_true, Bool.or_false]
      tauto
    have hmem : ["illegal", "drug", "weapon", "bomb"] ∈
        unsafePatterns.filter (fun p => patternMatches p (lowerChars text.toList)) :=
      List.mem_filter.mpr ⟨by simp [unsafePatterns], hp⟩
    exact List.length_pos.mpr (List.ne_nil_of_mem hmem)
  · intro hn
    exact keyword_unflagged_score text
      (List.filter_eq_nil_iff.mpr fun p hp => by rw [hn p hp]; simp)

/-- C6 witness: "how to make a bomb" scores 0.0; "hello world" scores 1.0. -/
theorem C6_keyword_fallback_witness :
    (keyword_safety_score "how to make a bomb").score = 0 ∧
    (keyword_safety_score "hello world").score = 1 :=
  ⟨(C6_keyword_fallback "how to make a bomb").1 (by decide),
   (C6_keyword_fallback "hello world").2 (by decide)⟩

/-- Counting fold over a list equals the length of its filtrate. -/
theorem foldl_count_eq_filter_length (p : List Char → Bool) (l : List (List Char)) :
    ∀ n : ℚ, l.foldl (fun n c => if p c then n + 1 else n) n =
      n + ((l.filter p).length : ℚ) := by
  induction l with
  | nil => intro n; simp
  | cons c rest ih =>
    intro n
    by_cases h : p c
    · simp [h, ih]
      ring
    · simp [h, ih]

/-- C7 counterexample: with an empty chunk list the grounding scorer returns
score 0.0 but explanation "No retrieved chunks available for grounding
check", not "no context available" as the claim states. -/
theorem C7_counterexample :
    (grounding_score 0 "answer" []).score = 0 ∧
    (grounding_score 0 "answer" []).explanation =
      some "No retrieved chunks available for grounding check" ∧
    ¬ (grounding_score 0 "answer" []).explanation = some "no context available" := by
  refine ⟨?_, by decide, by decide⟩
  simp [grounding_score]

/-- C7 (amended): for every answer and overlap value, the grounding scorer
on an empty chunk list returns score exactly 0.0 with explanation
"No retrieved chunks available for grounding check" (and, being a total
function, raises no error). -/
theorem C7_empty_chunks (overlap_score : ℚ) (answer : String) :
    grounding_score overlap_score answer [] =
      { score_type := ScoreType.grounding, score := 0,
        explanation :=
          some "No retrieved chunks available for grounding check" } := by
  simp [grounding_score]

/-- C8: the citation score is exactly the fraction of extracted citations
contained case-insensitively in the space-joined chunk text (0.0 when none
are extracted); every extracted citation is longer than 10 characters; and
on the example answer quoting "Paris is the capital of France" against a
chunk containing that phrase the citation score is exactly 1.0. -/
theorem C8_citation_score (answer : String) (chunks : List String) :
    calculate_citation_score answer chunks = citationSpecScore answer chunks ∧
    (∀ c ∈ extractCitations answer, 10 < c.length) ∧
    extractCitations c8Answer = [("Paris is the capital of France").toList] ∧
    calculate_citation_score c8Answer [c8Chunk] = 1 := by
  refine ⟨?_, ?_, by decide, ?_⟩
  · simp only [calculate_citation_score, citationSpecScore]
    by_cases he : extractCitations answer = []
    · simp [he]
    · rw [if_neg (by simp [List.isEmpty_iff, he]), if_neg he,
        foldl_count_eq_filter_length
          (fun c => containsSub (lowerChars (pyJoin [' '] (List.map String.toList chunks)))
            (lowerChars c))
          (extractCitations answer) 0,
        zero_add]
  · intro c hc
    simpa using (List.mem_filter.mp hc).2
  · have hc : extractCitations c8Answer =
        [("Paris is the capital of France").toList] := by decide
    simp only [calculate_citation_score, hc, List.isEmpty_cons,
      List.foldl_cons, List.foldl_nil, List.length_cons, List.length_nil]
    rw [if_neg (by simp), if_pos (by decide)]
    norm_num

/-- C8 witness: the example instantiation — the quoted phrase is an
extracted citation (longer than 10 characters) and the code score agrees
with the spec fraction. -/
theorem C8_citation_score_witness :
    calculate_citation_score c8Answer [c8Chunk] =
      citationSpecScore c8Answer [c8Chunk] ∧
    10 < ("Paris is the capital of France").toList.length :=
  ⟨(C8_citation_score c8Answer [c8Chunk]).1,
   (C8_citation_score c8Answer [c8Chunk]).2.1 _ (by decide)⟩

/-- C10: chunk-text derivation is a total function of the chunk: a dict
chunk yields its "text" value, else its "content" value, else the string
form of the whole dict; a non-dict chunk yields its string form.  No chunk
shape can make it raise. -/
theorem C10_chunk_text_total (t c r : String) (oc : Option String) :
    chunkText (Chunk.dict (some t) oc r) = t ∧
    chunkText (Chunk.dict none (some c) r) = c ∧
    chunkText (Chunk.dict none none r) = r ∧
    chunkText (Chunk.other r) = r :=
  ⟨rfl, rfl, rfl, rfl⟩

/-- C4 counterexample: a 200 reply with no leading numeric token ("hello")
does not fall back to the heuristic — it yields the fixed 0.5 "Could not
parse LLM score" result, which differs from the heuristic result for the
answer "x". -/
theorem C4_counterexample :
    (helpfulness_score (some "k") (LLMCall.reply 200 "hello") "x" none).score = 1/2 ∧
    (helpfulness_score (some "k") (LLMCall.reply 200 "hello") "x" none).explanation =
      some "Could not parse LLM score" ∧
    helpfulness_score (some "k") (LLMCall.reply 200 "hello") "x" none ≠
      heuristic_helpfulness_score "x" none :=
  ⟨rfl, by decide, fun h => absurd (congrArg ScoreResult.explanation h) (by decide)⟩

/-- C4 (amended): with a non-empty API key, the helpfulness scorer falls
back to the heuristic when the LLM call raises (error/timeout) or returns a
non-200 status; but a 200 reply with no leading numeric token yields the
fixed score 0.5 with explanation "Could not parse LLM score", not the
heuristic result.  Without an API key the heuristic is used directly. -/
theorem C4_llm_fallback (key answer content : String) (query : Option String)
    (hk : key ≠ "") :
    helpfulness_score none LLMCall.failure answer query =
      heuristic_helpfulness_score answer query ∧
    helpfulness_score (some key) LLMCall.failure answer query =
      heuristic_helpfulness_score answer query ∧
    (∀ status, status ≠ 200 →
      helpfulness_score (some key) (LLMCall.reply status content) answer query =
        heuristic_helpfulness_score answer query) ∧
    (parseLeadingNumber (stripChars content.toList) = none →
      (helpfulness_score (some key) (LLMCall.reply 200 content) answer query).score
          = 1/2 ∧
      (helpfulness_score (some key) (LLMCall.reply 200 content) answer
          query).explanation = some "Could not parse LLM score") := by
  refine ⟨by simp [helpfulness_score], by simp [helpfulness_score, hk], ?_, ?_⟩
  · intro status hst
    simp [helpfulness_score, hk, hst]
  · intro hp
    simp only [String.toList] at hp
    constructor <;> simp [helpfulness_score, hk, parse_llm_score, hp]

/-- C4 witness: key "k", reply 200 "hello" (no leading number), answer
"ans": the scorer returns score 0.5. -/
theorem C4_llm_fallback_witness :
    ("k" : String) ≠ "" ∧
    parseLeadingNumber (stripChars ("hello".toList)) = none ∧
    (helpfulness_score (some "k") (LLMCall.reply 200 "hello") "ans" none).score = 1/2 :=
  ⟨by decide, by decide,
   ((C4_llm_fallback "k" "ans" "hello" none (by decide)).2.2.2 (by decide)).1⟩

/-- C3: a per-trace scorer exception is confined to that trace.  For any
batch and any outcome assignment, every trace whose output is non-empty and
whose evaluation attempt succeeds is written back with its composite's
overall score and traffic light, whatever happened to the other traces; the
tick itself is a total function (no exception propagates past it). -/
theorem C3_per_trace_isolation (outcome : Nat → Except String CompositeScore)
    (batch : List TraceRow) (i : Nat) (hi : i < batch.length)
    (out : String) (cs : CompositeScore)
    (hout : (batch.get ⟨i, hi⟩).model_output = some out) (hne : out ≠ "")
    (hok : outcome (batch.get ⟨i, hi⟩).trace_id = Except.ok cs) :
    ∃ hi2 : i < (runTick outcome batch).length,
      ((runTick outcome batch).get ⟨i, hi2⟩).overall_score =
        some cs.overall_score ∧
      ((runTick outcome batch).get ⟨i, hi2⟩).traffic_light =
        some cs.overall_traffic_light := by
  have hlen : (runTick outcome batch).length = batch.length := by
    simp [runTick]
  have hget : (runTick outcome batch).get ⟨i, hlen ▸ hi⟩ =
      processTrace outcome (batch.get ⟨i, hi⟩) := by
    simp [runTick]
  simp only [List.get_eq_getElem] at hout hok
  refine ⟨hlen ▸ hi, ?_, ?_⟩ <;>
    rw [hget] <;> simp [processTrace, hout, hne, hok]

/-- C3 witness: in a batch of 5 traces where trace #3's scorer call raises,
trace #1 (and, by the map below, every trace except #3) is still scored and
written, and the tick completes. -/
theorem C3_per_trace_isolation_witness :
    (∃ hi2 : 0 < (runTick c3Outcome c3Batch).length,
      ((runTick c3Outcome c3Batch).get ⟨0, hi2⟩).overall_score =
        some (composite_score none none none).overall_score ∧
      ((runTick c3Outcome c3Batch).get ⟨0, hi2⟩).traffic_light =
        some (composite_score none none none).overall_traffic_light) ∧
    (runTick c3Outcome c3Batch).map (fun t => t.overall_score.isSome) =
      [true, true, false, true, true] :=
  ⟨C3_per_trace_isolation c3Outcome c3Batch 0 (by decide) "a1"
      (composite_score none none none) rfl (by decide) rfl,
   by decide⟩

/-- C9 counterexample: a trace whose `model_output` is the empty string is
selected as eligible (the column is non-NULL), yet the tick skips it
without writing any status, so it is still eligible after the tick — and on
every later tick. -/
theorem C9_counterexample :
    eligibleForEvaluation c9Trace = true ∧
    runTick (fun _ => Except.ok (composite_score none none none)) [c9Trace] =
      [c9Trace] ∧
    eligibleForEvaluation (processTrace
      (fun _ => Except.ok (composite_score none none none)) c9Trace) = true :=
  ⟨by decide, by decide, by decide⟩

/-- C9 (amended): an eligible trace with non-empty output whose evaluation
attempt completes receives the composite's overall score and status and
stops being eligible; when no axis could be scored the composite written is
red (score 0.0).  Traces with empty-string output, or whose attempt raises,
are left unscored and stay eligible. -/
theorem C9_eligible_scored (outcome : Nat → Except String CompositeScore)
    (t : TraceRow) (out : String) (cs : CompositeScore)
    (hout : t.model_output = some out) (hne : out ≠ "")
    (hok : outcome t.trace_id = Except.ok cs) :
    (processTrace outcome t).overall_score = some cs.overall_score ∧
    (processTrace outcome t).traffic_light = some cs.overall_traffic_light ∧
    eligibleForEvaluation (processTrace outcome t) = false ∧
    (composite_score none none none).overall_traffic_light = TrafficLight.red := by
  refine ⟨?_, ?_, ?_, rfl⟩ <;>
    simp [processTrace, hout, hne, hok, eligibleForEvaluation]

/-- C9 witness: a concrete eligible trace with output "ans" and a
successful attempt is written and stops being eligible. -/
theorem C9_eligible_scored_witness :
    eligibleForEvaluation (processTrace
      (fun _ => Except.ok (composite_score none none none))
      ⟨1, some "ans", none, none, none⟩) = false :=
  (C9_eligible_scored (fun _ => Except.ok (composite_score none none none))
    ⟨1, some "ans", none, none, none⟩ "ans" (composite_score none none none)
    rfl (by decide) rfl).2.2.1

/-- The citation score is a fraction in `[0,1]`. -/
theorem citation_score_bounds (answer : String) (chunks : List String) :
    0 ≤ calculate_citation_score answer chunks ∧
    calculate_citation_score answer chunks ≤ 1 := by
  simp only [calculate_citation_score]
  by_cases he : (extractCitations answer).isEmpty = true
  · rw [if_pos he]
    norm_num
  · rw [if_neg he,
      foldl_count_eq_filter_length
        (fun c => containsSub (lowerChars (pyJoin [' '] (List.map String.toList chunks)))
          (lowerChars c))
        (extractCitations answer) 0,
      zero_add]
    have hlen : 0 < ((extractCitations answer).length : ℚ) := by
      exact_mod_cast List.length_pos.mpr (by simpa [List.isEmpty_iff] using he)
    constructor
    · positivity
    · rw [div_le_one hlen]
      exact_mod_cast List.length_filter_le _ _

/-- The grounding score is in `[0,1]` whenever the TF-IDF overlap score is,
and its confidence is 1. -/
theorem grounding_score_bounds (overlap_score : ℚ) (answer : String)
    (chunks : List Chunk) (h0 : 0 ≤ overlap_score) (h1 : overlap_score ≤ 1) :
    0 ≤ (grounding_score overlap_score answer chunks).score ∧
    (grounding_score overlap_score answer chunks).score ≤ 1 ∧
    (grounding_score overlap_score answer chunks).confidence = 1 := by
  obtain ⟨hc0, hc1⟩ := citation_score_bounds answer (chunks.map chunkText)
  by_cases he : chunks.isEmpty = true
  · simp [grounding_score, he]
  · simp only [grounding_score, he, if_false, Bool.false_eq_true]
    refine ⟨by nlinarith, by nlinarith, by trivial⟩

/-- The heuristic helpfulness score is in `[0,1]` with confidence 1. -/
theorem heuristic_score_bounds (answer : String) (query : Option String) :
    0 ≤ (heuristic_helpfulness_score answer query).score ∧
    (heuristic_helpfulness_score answer query).score ≤ 1 ∧
    (heuristic_helpfulness_score answer query).confidence = 1 := by
  have hls : 0 ≤ lengthScoreOf answer.toList.length := by
    unfold lengthScoreOf
    split_ifs <;> norm_num
  have hqs : 0 ≤ queryScoreOf (queryOverlap answer query) := by
    unfold queryScoreOf
    split_ifs with h
    · exact le_min (by norm_num) (by positivity)
    · norm_num
  have hsm : (0:ℚ) ≤ if hasStructureMarker answer then 0.2 else 0 := by
    split_ifs <;> norm_num
  have hsp : (0:ℚ) ≤ if hasSpecificMarker answer then 0.2 else 0 := by
    split_ifs <;> norm_num
  refine ⟨?_, ?_, rfl⟩
  · simp only [heuristic_helpfulness_score]
    exact le_min (by norm_num) (by linarith)
  · simp only [heuristic_helpfulness_score]
    exact min_le_left _ _

/-- `_parse_llm_score` returns a score in `[0,1]` on every reply. -/
theorem parse_llm_score_bounds (content : String) :
    0 ≤ (parse_llm_score content).1 ∧ (parse_llm_score content).1 ≤ 1 := by
  rcases hparse : parseLeadingNumber (stripChars content.toList) with _ | raw
  · simp only [parse_llm_score, hparse]
    norm_num
  · simp only [parse_llm_score, hparse]
    exact ⟨le_max_left _ _, max_le (by norm_num) (min_le_left _ _)⟩

/-- The keyword safety score is in `[0,1]` with confidence 1. -/
theorem keyword_safety_bounds (text : String) :
    0 ≤ (keyword_safety_score text).score ∧
    (keyword_safety_score text).score ≤ 1 ∧
    (keyword_safety_score text).confidence = 1 := by
  simp only [keyword_safety_score]
  split_ifs <;> norm_num

/-- The moderation-API safety score is in `[0,1]` with confidence 1 on
every call outcome. -/
theorem api_safety_bounds (call : ModerationCall) (text : String) :
    0 ≤ (api_safety_score call text).score ∧
    (api_safety_score call text).score ≤ 1 ∧
    (api_safety_score call text).confidence = 1 := by
  cases call with
  | failure => exact keyword_safety_bounds text
  | reply status flagged categories =>
    simp only [api_safety_score]
    split_ifs <;> first | exact keyword_safety_bounds text | norm_num

/-- The helpfulness scorer's score is in `[0,1]` with confidence 1 on every
path (no key, raised call, non-200 status, parsed 200 reply). -/
theorem helpfulness_bounds (api_key : Option String) (call : LLMCall)
    (answer : String) (query : Option String) :
    0 ≤ (helpfulness_score api_key call answer query).score ∧
    (helpfulness_score api_key call answer query).score ≤ 1 ∧
    (helpfulness_score api_key call answer query).confidence = 1 := by
  cases call with
  | failure =>
    simp only [helpfulness_score]
    split_ifs <;> exact heuristic_score_bounds answer query
  | reply status content =>
    simp only [helpfulness_score]
    split_ifs with h hs
    · exact heuristic_score_bounds answer query
    · obtain ⟨hp0, hp1⟩ := parse_llm_score_bounds content
      exact ⟨hp0, hp1, rfl⟩
    · exact heuristic_score_bounds answer query

/-- The safety scorer's score is in `[0,1]` with confidence 1 on every
path (keyword fallback or moderation API). -/
theorem safety_bounds (api_key : Option String) (call : ModerationCall)
    (text : String) :
    0 ≤ (safety_score api_key call text).score ∧
    (safety_score api_key call text).score ≤ 1 ∧
    (safety_score api_key call text).confidence = 1 := by
  simp only [safety_score]
  split_ifs
  · exact keyword_safety_bounds text
  · exact api_safety_bounds call text

/-- C5: every ScoreResult producer of the engine emits a score in `[0,1]`
and confidence 1 — the grounding combination (given the sklearn cosine
similarity in `[0,1]`), the heuristic helpfulness path, the LLM score
parser's clamp, the keyword safety fallback, the moderation-API safety
path, and the full helpfulness and safety dispatchers on every path — so
stored ScoreResults satisfy `0 ≤ score ≤ 1` and `0 ≤ confidence ≤ 1`. -/
theorem C5_scores_in_range (overlap_score : ℚ) (answer content text : String)
    (query : Option String) (chunks : List Chunk)
    (h0 : 0 ≤ overlap_score) (h1 : overlap_score ≤ 1) :
    (0 ≤ (grounding_score overlap_score answer chunks).score ∧
     (grounding_score overlap_score answer chunks).score ≤ 1 ∧
     (grounding_score overlap_score answer chunks).confidence = 1) ∧
    (0 ≤ (heuristic_helpfulness_score answer query).score ∧
     (heuristic_helpfulness_score answer query).score ≤ 1 ∧
     (heuristic_helpfulness_score answer query).confidence = 1) ∧
    (0 ≤ (parse_llm_score content).1 ∧ (parse_llm_score content).1 ≤ 1) ∧
    (0 ≤ (keyword_safety_score text).score ∧
     (keyword_safety_score text).score ≤ 1 ∧
     (keyword_safety_score text).confidence = 1) ∧
    (∀ call : ModerationCall,
      0 ≤ (api_safety_score call text).score ∧
      (api_safety_score call text).score ≤ 1 ∧
      (api_safety_score call text).confidence = 1) ∧
    (∀ (api_key : Option String) (call : LLMCall),
      0 ≤ (helpfulness_score api_key call answer query).score ∧
      (helpfulness_score api_key call answer query).score ≤ 1 ∧
      (helpfulness_score api_key call answer query).confidence = 1) ∧
    (∀ (api_key : Option String) (call : ModerationCall),
      0 ≤ (safety_score api_key call text).score ∧
      (safety_score api_key call text).score ≤ 1 ∧
      (safety_score api_key call text).confidence = 1) :=
  ⟨grounding_score_bounds overlap_score answer chunks h0 h1,
   heuristic_score_bounds answer query,
   parse_llm_score_bounds content,
   keyword_safety_bounds text,
   fun call => api_safety_bounds call text,
   fun api_key call => helpfulness_bounds api_key call answer query,
   fun api_key call => safety_bounds api_key call text⟩

/-- C5 witness: concrete instantiation at overlap 1/2. -/
theorem C5_scores_in_range_witness :
    ((0:ℚ) ≤ 1/2 ∧ (1/2:ℚ) ≤ 1) ∧
    (0 ≤ (grounding_score (1/2) "a" [Chunk.other "c"]).score ∧
     (grounding_score (1/2) "a" [Chunk.other "c"]).score ≤ 1 ∧
     (grounding_score (1/2) "a" [Chunk.other "c"]).confidence = 1) :=
  ⟨⟨by norm_num, by norm_num⟩,
   (C5_scores_in_range (1/2) "a" "3 ok" "hi" none [Chunk.other "c"]
     (by norm_num) (by norm_num)).1⟩

end RagToolkit
